import Mathlib

/-!
Shallow embedding of the ThreatDetector-AI ensemble risk-scoring engine and
its online-learning feedback loop, together with theorems settling the
specification claims about it.

Sources embedded (Python floats are modelled as exact rationals `ℚ`):
* `app/routes/analyze.py` (ensemble fusion, boost rule, 0.7/0.4 thresholds);
* `app/routes/analyze_encrypted.py` (alternate weights and 0.8/0.5 thresholds);
* `app/services/online_learning_classifier.py` (feature extraction,
  `predict`, `partial_fit`, sklearn fitted-state bookkeeping);
* `app/services/training_service.py` (batch training orchestrator,
  consent filter, `is_training` flag, feedback path).
-/

namespace ThreatDetector

/-! ## Ensemble fusion engine (`app/routes/analyze.py`)

Each of the five classifiers is an independently failing call.  A classifier
result is modelled as `Option R`: `none` models the call raising an exception,
which the route catches in its per-classifier `try/except` block. -/

/-- Result dict of `ai_predict`. -/
structure AiRes where
  ai_generated : Bool
  ai_confidence : ℚ
  human_confidence : ℚ
deriving DecidableEq

/-- Result dict of `intent_predict`. -/
structure IntentRes where
  intent : String
  intent_confidence : ℚ
deriving DecidableEq

/-- Result dict of `style_predict` (human-likeness in `style_score`). -/
structure StyleRes where
  style_score : ℚ
deriving DecidableEq

/-- Result dict of `url_predict`. -/
structure UrlRes where
  url_detected : Bool
  url_score : ℚ
  domains : List String
deriving DecidableEq

/-- Result dict of `keyword_predict`. -/
structure KwRes where
  keywords : List String
  keyword_score : ℚ
deriving DecidableEq

/-- The `scores` dict of `analyze_threat`. -/
structure Scores where
  ai : ℚ
  intent : ℚ
  style : ℚ
  url : ℚ
  keyword : ℚ
deriving DecidableEq

/-- The `results` dict of `analyze_threat` (per-classifier detail). -/
structure AnalysisResults where
  ai_generated : Bool
  ai_confidence : ℚ
  human_confidence : ℚ
  intent : String
  intent_confidence : ℚ
  style_score : ℚ
  url_detected : Bool
  url_score : ℚ
  domains : List String
  keywords : List String
  keyword_score : ℚ
deriving DecidableEq

/-- Source `intent_threat_map` lookup with default 0.3 (`analyze.py` lines 81-88). -/
def intentThreatMap (intent : String) : ℚ :=
  if intent = "phishing" then 0.9
  else if intent = "scam" then 0.85
  else if intent = "propaganda" then 0.7
  else if intent = "spam" then 0.6
  else if intent = "unknown" then 0.3
  else 0.3

/-! The five guarded classifier blocks of `analyze_threat` (lines 52-142):
each `try` block reads one classifier result into `scores`/`results`, each
`except` block substitutes the documented neutral defaults.  Every assigned
entry is embedded as its own function of the one classifier result the
source block reads. -/

/-- Source `scores["ai"]` (lines 58-70): confidence on success, 0.0 on failure. -/
def aiScoreOf : Option AiRes → ℚ
  | some r => r.ai_confidence
  | none => 0

/-- Source `results["ai_generated"]`. -/
def aiGenOf : Option AiRes → Bool
  | some r => r.ai_generated
  | none => false

/-- Source `results["ai_confidence"]`. -/
def aiConfOf : Option AiRes → ℚ
  | some r => r.ai_confidence
  | none => 0

/-- Source `results["human_confidence"]` (failure default 1.0). -/
def humConfOf : Option AiRes → ℚ
  | some r => r.human_confidence
  | none => 1

/-- Source `results["intent"]` (lines 75-95): label on success, "unknown" on failure. -/
def intentLabelOf : Option IntentRes → String
  | some r => r.intent
  | none => "unknown"

/-- Source `scores["intent"]`: threat-map lookup on success; the failure branch sets
the score to 0.0 directly (not `intentThreatMap "unknown" = 0.3`). -/
def intentScoreOf : Option IntentRes → ℚ
  | some r => intentThreatMap r.intent
  | none => 0

/-- Source `results["intent_confidence"]`. -/
def intentConfOf : Option IntentRes → ℚ
  | some r => r.intent_confidence
  | none => 0

/-- Source `scores["style"]` (lines 100-110): inverted human-likeness on success,
neutral 0.5 on failure. -/
def styleScoreOf : Option StyleRes → ℚ
  | some r => 1 - r.style_score
  | none => 0.5

/-- Source `results["style_score"]`. -/
def styleRawOf : Option StyleRes → ℚ
  | some r => r.style_score
  | none => 0

/-- Source `scores["url"]` (lines 115-127). -/
def urlScoreOf : Option UrlRes → ℚ
  | some r => r.url_score
  | none => 0

/-- Source `results["url_detected"]`. -/
def urlDetOf : Option UrlRes → Bool
  | some r => r.url_detected
  | none => false

/-- Source `results["domains"]`. -/
def domainsOf : Option UrlRes → List String
  | some r => r.domains
  | none => []

/-- Source `scores["keyword"]` (lines 132-142). -/
def kwScoreOf : Option KwRes → ℚ
  | some r => r.keyword_score
  | none => 0

/-- Source `results["keywords"]`. -/
def keywordsOf : Option KwRes → List String
  | some r => r.keywords
  | none => []

/-- The `scores` and `results` dicts after the five guarded blocks. -/
def computeScores (o1 : Option AiRes) (o2 : Option IntentRes)
    (o3 : Option StyleRes) (o4 : Option UrlRes) (o5 : Option KwRes) :
    Scores × AnalysisResults :=
  (⟨aiScoreOf o1, intentScoreOf o2, styleScoreOf o3, urlScoreOf o4, kwScoreOf o5⟩,
   ⟨aiGenOf o1, aiConfOf o1, humConfOf o1, intentLabelOf o2, intentConfOf o2,
    styleRawOf o3, urlDetOf o4, urlScoreOf o4, domainsOf o4,
    keywordsOf o5, kwScoreOf o5⟩)

/-- Source `high_risk_indicators` count (`analyze.py` lines 156-164). -/
def highRiskIndicators (intentLabel : String) (sc : Scores) : ℕ :=
  (if intentLabel = "phishing" ∨ intentLabel = "scam" then 1 else 0) +
  (if (0.8 : ℚ) ≤ sc.url then 1 else 0) +
  (if (0.8 : ℚ) ≤ sc.keyword then 1 else 0) +
  (if (0.8 : ℚ) ≤ sc.ai then 1 else 0)

/-- Weighted ensemble sum with the `WEIGHTS` of `analyze.py` (lines 18-24). -/
def weightedScore (sc : Scores) : ℚ :=
  0.35 * sc.ai + 0.35 * sc.intent + 0.10 * sc.style + 0.12 * sc.url + 0.08 * sc.keyword

/-- Weighted sum plus multiplicative boost and cap (`analyze.py` lines 147-170). -/
def fuseRiskScore (sc : Scores) (intentLabel : String) : ℚ :=
  if 3 ≤ highRiskIndicators intentLabel sc then min 1 (weightedScore sc * 1.15)
  else if 2 ≤ highRiskIndicators intentLabel sc then min 1 (weightedScore sc * 1.08)
  else weightedScore sc

/-- Risk-level thresholds of `analyze.py` (lines 172-178): 0.7 / 0.4. -/
def riskLevel (s : ℚ) : String :=
  if 0.7 ≤ s then "HIGH"
  else if 0.4 ≤ s then "MEDIUM"
  else "LOW"

/-- Risk-level thresholds of `analyze_encrypted.py` (lines 162-167): 0.8 / 0.5. -/
def riskLevelEncrypted (s : ℚ) : String :=
  if 0.8 ≤ s then "HIGH"
  else if 0.5 ≤ s then "MEDIUM"
  else "LOW"

/-- The response payload built by `analyze_threat`. -/
structure EnsembleResult where
  risk_score : ℚ
  risk_level : String
  component_scores : Scores
  analysis : AnalysisResults
deriving DecidableEq

/-- Full analysis pipeline of `analyze_threat` (classifier blocks, weighted
sum, boost, thresholds).  Total by construction: every combination of
failed (`none`) and succeeded (`some`) classifier calls yields a result. -/
def analyze (o1 : Option AiRes) (o2 : Option IntentRes) (o3 : Option StyleRes)
    (o4 : Option UrlRes) (o5 : Option KwRes) : EnsembleResult :=
  let (sc, res) := computeScores o1 o2 o3 o4 o5
  let rs := fuseRiskScore sc res.intent
  ⟨rs, riskLevel rs, sc, res⟩

/-! ## Online learning classifier (`app/services/online_learning_classifier.py`)

The sklearn objects (`SGDClassifier`, `StandardScaler`) are embedded by the
state that matters for control flow: whether the Python attribute is `None`
(`…Exists`), whether the sklearn estimator has been fitted (`…Fitted`), and
the feature dimension it was fitted with (`…Dim`).  Timestamps are abstract
naturals supplied by the caller (`datetime.now()`). -/

/-- Model version strings: `v0_init_{ts}` from `_initialize_model`, or
`v{n}_{ts}` stamped after a fit. -/
inductive MV where
  | vInit (t : ℕ)
  | vTrained (n : ℕ) (t : ℕ)
deriving DecidableEq

/-- Mutable state of one `OnlineLearningClassifier` instance. -/
structure OnlineState where
  modelExists : Bool
  modelFitted : Bool
  modelDim : Option ℕ
  scalerExists : Bool
  scalerFitted : Bool
  scalerDim : Option ℕ
  feature_dim : Option ℕ
  model_version : Option MV
  training_samples : ℕ
  last_trained : Option ℕ
deriving DecidableEq

/-- State after `__init__` when no snapshot file exists under `model_dir`. -/
def freshOnline : OnlineState :=
  ⟨false, false, none, false, false, none, none, none, 0, none⟩

/-- Source `_initialize_model` (lines 337-356): fresh unfitted `SGDClassifier` and
`StandardScaler`, `feature_dim` fixed, `v0_init` version; does not touch
`training_samples` or `last_trained`. -/
def initializeModel (st : OnlineState) (d : ℕ) (now : ℕ) : OnlineState :=
  { st with
    modelExists := true, modelFitted := false, modelDim := none,
    scalerExists := true, scalerFitted := false, scalerDim := none,
    feature_dim := some d, model_version := some (.vInit now) }

/-- The fixed class vocabulary `self.classes`. -/
def olClasses : List String :=
  ["safe", "threat", "phishing", "scam", "spam", "propaganda"]

/-- sklearn exceptions surfaced by the embedded estimator calls. -/
inductive PyError where
  | notFitted
  | dimMismatch
  | badShape
  | badLabel
deriving DecidableEq

/-- Return value of a successful `partial_fit`. -/
structure FitStats where
  samples_trained : ℕ
  total_samples : ℕ
  model_version : MV
deriving DecidableEq

/-- Source `partial_fit(X, y)` (lines 237-282) on a batch of `n` rows of dimension
`d` with labels `y`.  The returned state carries the mutations that persist
even when an exception is raised partway (Python objects mutate in place).
sklearn behaviour embedded:
* `StandardScaler()` assigned then `fit_transform`/first `partial_fit` fits
  the scaler at dimension `d`; a batch with 0 rows or 0 features raises;
* `partial_fit` on an already-fitted scaler first rejects an empty batch,
  then rejects a dimension other than the fitted one;
* `SGDClassifier.partial_fit(…, classes)` rejects `y` of length ≠ `n`,
  labels outside `classes`, and a dimension other than a fitted model's. -/
def partial_fit (st : OnlineState) (n d : ℕ) (y : List String) (now : ℕ) :
    Except PyError FitStats × OnlineState :=
  let st1 := if st.modelExists then st else initializeModel st d now
  if st1.scalerFitted then
    if n = 0 then (.error .badShape, st1)
    else if st1.scalerDim ≠ some d then (.error .dimMismatch, st1)
    else fitModel st1 n d y now
  else
    -- covers both `self.scaler is None` (fresh scaler assigned, then
    -- `fit_transform`) and an assigned-but-unfitted scaler, whose first
    -- `partial_fit` call is a plain fit at the batch dimension
    if n = 0 ∨ d = 0 then (.error .badShape, { st1 with scalerExists := true })
    else fitModel
      { st1 with scalerExists := true, scalerFitted := true, scalerDim := some d }
      n d y now
where
  /-- Source `self.model.partial_fit(X_scaled, y, classes=self.classes)` plus the
  counter/version/timestamp updates of lines 270-282. -/
  fitModel (st2 : OnlineState) (n d : ℕ) (y : List String) (now : ℕ) :
      Except PyError FitStats × OnlineState :=
    if y.length ≠ n then (.error .badShape, st2)
    else if ¬ y.all (olClasses.contains ·) then (.error .badLabel, st2)
    else if st2.modelFitted ∧ st2.modelDim ≠ some d then (.error .dimMismatch, st2)
    else
      let total := st2.training_samples + n
      let ver : MV := .vTrained total now
      (.ok ⟨n, total, ver⟩,
       { st2 with
         modelFitted := true, modelDim := some d,
         training_samples := total, last_trained := some now,
         model_version := some ver })

/-- Frozen static classifier output consumed by `predict`. -/
structure StaticRes where
  intent : String
  probability : ℚ
deriving DecidableEq

/-- Return dict of `predict` (the fields the claims mention). -/
structure PredictOut where
  intent : String
  confidence : ℚ
  model_version : Option MV
  static_intent : String
  static_probability : ℚ
  model_status : String
deriving DecidableEq

/-- Source `predict(text)` (lines 180-235).  `d` is the extracted feature dimension,
`static` the frozen classifier's result for `text`, and `modelPred`/`modelConf`
the (opaque) output the fitted linear model would produce.  The structure
mirrors the source: initialize the model object if absent, run the scaler
transform *outside* the `try` block (an unfitted or mismatched scaler
therefore raises out of `predict`), then the guarded model prediction with
fallback to the static result. -/
def predictOL (st : OnlineState) (d : ℕ) (static : StaticRes)
    (modelPred : String) (modelConf : ℚ) (now : ℕ) :
    Except PyError PredictOut × OnlineState :=
  let st1 := if st.modelExists then st else initializeModel st d now
  if st1.scalerExists ∧ ¬ st1.scalerFitted then
    (.error .notFitted, st1)
  else if st1.scalerExists ∧ st1.scalerDim ≠ some d then
    (.error .dimMismatch, st1)
  else
    -- the try block: `self.model.predict` succeeds iff the model is fitted
    -- at the right dimension; any exception falls back to the static result
    let (pred, conf) :=
      if st1.modelFitted ∧ st1.modelDim = some d then (modelPred, modelConf)
      else (static.intent, static.probability)
    (.ok ⟨pred, conf, st1.model_version, static.intent, static.probability,
          if st1.modelExists then "online" else "static_only"⟩,
     st1)

/-- Fold of successive `partial_fit` calls; `none` as soon as one raises.
Each element of the list is `(n, d, y, now)` for one call. -/
def applyFits (st : OnlineState) : List (ℕ × ℕ × List String × ℕ) → Option OnlineState
  | [] => some st
  | (n, d, y, t) :: rest =>
    match partial_fit st n d y t with
    | (.ok _, st') => applyFits st' rest
    | (.error _, _) => none

/-! ## Training orchestrator (`app/services/training_service.py`)

The `training_data` and `model_metadata` Supabase tables are embedded as
in-memory lists; every query/update of the service is a pure list operation.
Each entry point additionally returns a `fitLog`: the samples it actually
passed to the classifier's `partial_fit` (the object of the consent claim). -/

/-- One row of the `training_data` table. -/
structure Sample where
  id : ℕ
  account_id : Option ℕ
  features : List ℚ
  label : String
  confidence : ℚ
  source : String
  consent_verified : Bool
  trained : Bool
  model_version : Option MV
  feedback_corrected : Bool
  created_at : ℕ
  trained_at : Option ℕ
deriving DecidableEq

/-- One row of the `model_metadata` table. -/
structure MetaRec where
  account_id : Option ℕ
  model_version : Option MV
  training_samples : ℕ
  feature_dim : Option ℕ
  is_active : Bool
deriving DecidableEq

/-- Mutable state of the `TrainingService` plus its database tables. -/
structure ServiceState where
  db : List Sample
  meta : List MetaRec
  clf : OnlineState
  is_training : Bool
deriving DecidableEq

/-- Source `status` values returned by `train_on_new_data`. -/
inductive TrainStatus where
  | already_training
  | no_data
  | success
  | error
deriving DecidableEq

/-- Result of `train_on_new_data`: outcome, final state, and the samples
passed to `partial_fit`. -/
structure RunOut where
  status : TrainStatus
  samples_trained : ℕ
  state : ServiceState
  fitLog : List Sample
deriving DecidableEq

/-- Source `samples[i:i + batch_size]` slices of the Python batch loop. -/
def chunks (k : ℕ) (l : List Sample) : List (List Sample) :=
  if h : l = [] ∨ k = 0 then []
  else l.take k :: chunks k (l.drop k)
termination_by l.length
decreasing_by
  push_neg at h
  simpa using Nat.sub_lt (List.length_pos.mpr h.1) (Nat.pos_of_ne_zero h.2)

/-- Dimension of `np.array(rows)` for a rectangular nonempty list of rows;
`none` when the rows are ragged (numpy raises on inhomogeneous shapes). -/
def rectDim : List (List ℚ) → Option ℕ
  | [] => none
  | r :: rs => if rs.all (fun x => x.length == r.length) then some r.length else none

/-- The per-batch training loop of `train_on_new_data` (lines 82-104):
build `X`/`y`, call `partial_fit`, mark the batch's ids trained with the new
model version.  Returns the loop outcome, mutated classifier and table, the
count of samples in completed batches, and the samples passed to
`partial_fit`.  An exception stops the loop; earlier batches stay trained. -/
def runBatches (clf : OnlineState) (db : List Sample) (now : ℕ) :
    List (List Sample) →
    Except PyError Unit × OnlineState × List Sample × ℕ × List Sample
  | [] => (.ok (), clf, db, 0, [])
  | b :: rest =>
    match rectDim (b.map (·.features)) with
    | none =>
      -- `np.array` raises on ragged feature rows before the classifier runs
      (.error .badShape, clf, db, 0, [])
    | some d =>
      match partial_fit clf b.length d (b.map (·.label)) now with
      | (.error e, clf') => (.error e, clf', db, 0, b)
      | (.ok stats, clf') =>
        let ids := b.map (·.id)
        let db' := db.map fun s =>
          if ids.contains s.id then
            { s with trained := true, model_version := some stats.model_version,
                     trained_at := some now }
          else s
        let (res, clf'', db'', cnt, log) := runBatches clf' db' now rest
        (res, clf'', db'', b.length + cnt, b ++ log)

/-- The untrained-sample query of `train_on_new_data` (lines 59-67):
`trained=false AND consent_verified=true`, optional account filter, ordered
by `created_at`, capped at `max_samples`. -/
def selectSamples (db : List Sample) (account_id : Option ℕ)
    (max_samples : ℕ) : List Sample :=
  (List.insertionSort (fun a b => a.created_at ≤ b.created_at)
    (db.filter fun s =>
      !s.trained && s.consent_verified &&
      match account_id with
      | none => true
      | some a => s.account_id == some a)).take max_samples

/-- Source `train_on_new_data` (lines 32-158).  The `finally` clause clears
`is_training` on the `no_data`, exception, and success paths alike; the
`already_training` early return precedes the `try` and leaves the state
untouched. -/
def train_on_new_data (st : ServiceState) (account_id : Option ℕ)
    (batch_size max_samples : ℕ) (now : ℕ) : RunOut :=
  if st.is_training then ⟨.already_training, 0, st, []⟩
  else
    if (selectSamples st.db account_id max_samples).isEmpty then
      ⟨.no_data, 0, { st with is_training := false }, []⟩
    else if batch_size = 0 then
      -- Python `range(0, n, 0)` raises ValueError, caught by the blanket
      -- except; nothing is trained
      ⟨.error, 0, { st with is_training := false }, []⟩
    else
      let (res, clf', db', cnt, log) :=
        runBatches st.clf st.db now
          (chunks batch_size (selectSamples st.db account_id max_samples))
      match res with
      | .error _ =>
        -- except branch: reports samples_trained = 0 even when earlier
        -- batches were durably trained
        ⟨.error, 0, ⟨db', st.meta, clf', false⟩, log⟩
      | .ok _ =>
        let meta' := st.meta.map fun m =>
          if m.account_id == account_id && m.is_active then
            { m with is_active := false }
          else m
        let newMeta : MetaRec :=
          ⟨account_id, clf'.model_version, clf'.training_samples,
           clf'.feature_dim, true⟩
        ⟨.success, cnt, ⟨db', meta' ++ [newMeta], clf', false⟩, log⟩

/-- Source `status` values returned by `apply_feedback`. -/
inductive FbStatus where
  | not_found
  | retrained
  | queued
  | error
deriving DecidableEq

/-- Result of `apply_feedback`: outcome, final state, and the samples passed
to `partial_fit`. -/
structure FbOut where
  status : FbStatus
  state : ServiceState
  fitLog : List Sample
deriving DecidableEq

/-- Source `apply_feedback` (lines 248-317): update the record's label, flag it
feedback-corrected and untrained; with `retrain=true` immediately run a
single-sample `partial_fit` on the updated record and re-mark it trained.
Neither branch consults `is_training` or `consent_verified`. -/
def apply_feedback (st : ServiceState) (record_id : ℕ)
    (corrected_label : String) (retrain : Bool) (now : ℕ) : FbOut :=
  let db1 := st.db.map fun s =>
    if s.id = record_id then
      { s with label := corrected_label, feedback_corrected := true,
               trained := false, source := "feedback" }
    else s
  match db1.filter (fun s => s.id == record_id) with
  | [] => ⟨.not_found, { st with db := db1 }, []⟩
  | record :: _ =>
    if retrain then
      let (res, clf') :=
        partial_fit st.clf 1 record.features.length [record.label] now
      match res with
      | .error _ => ⟨.error, { st with db := db1, clf := clf' }, [record]⟩
      | .ok stats =>
        let db2 := db1.map fun s =>
          if s.id = record_id then
            { s with trained := true, model_version := some stats.model_version,
                     trained_at := some now }
          else s
        ⟨.retrained, { st with db := db2, clf := clf' }, [record]⟩
    else ⟨.queued, { st with db := db1 }, []⟩

/-! ## Feature extractor (`extract_features`, lines 55-178)

The 16 engineered features, each as a function of the input text, in the
exact source order.  Python strings are Lean `String`s; floats are `ℚ`
except the Shannon entropy, which is real-valued.  The three frozen-model
confidences prepended to the vector come from the black-box static
classifier and are not part of the engineered features. -/

/-- Source `text.lower()` as a character list. -/
def pyLower (t : String) : List Char := t.data.map Char.toLower

/-- Python's `needle in hay` substring test on character lists. -/
def subIn (needle : List Char) : List Char → Bool
  | [] => needle.isEmpty
  | c :: rest => needle.isPrefixOf (c :: rest) || subIn needle rest

/-- Split a character list at every character satisfying `p`, keeping empty
pieces (the semantics of splitting on single delimiters). -/
def splitOnPred (p : Char → Bool) : List Char → List (List Char)
  | [] => [[]]
  | c :: rest =>
    match splitOnPred p rest with
    | [] => [[]]
    | g :: gs => if p c then [] :: g :: gs else (c :: g) :: gs

/-- Python `str.strip()`: drop leading and trailing whitespace. -/
def trimChars (cs : List Char) : List Char :=
  ((cs.dropWhile Char.isWhitespace).reverse.dropWhile Char.isWhitespace).reverse

/-- Source `text.split()`: split on whitespace, dropping empty pieces (Python's
no-argument split collapses whitespace runs). -/
def pyWords (t : String) : List (List Char) :=
  (splitOnPred Char.isWhitespace t.data).filter (· ≠ [])

/-- Source `len(text.split())`. -/
def wordCount (t : String) : ℕ := (pyWords t).length

/-- Characters excluded from a URL match by the pattern
`https?://[^\s<>"{}\\|^`\[\]]+` — whitespace plus the eleven listed
characters, written by codepoint. -/
def urlBodyForbidden (c : Char) : Bool :=
  c.isWhitespace || [60, 62, 34, 123, 125, 92, 124, 94, 96, 91, 93].contains c.toNat

/-- Case-insensitive match of the scheme part `https?://` at the head of the
character list, returning the remainder after the scheme. -/
def matchScheme (cs : List Char) : Option (List Char) :=
  let low := (cs.take 8).map Char.toLower
  if low = "https://".data then some (cs.drop 8)
  else if low.take 7 = "http://".data then some (cs.drop 7)
  else none

/-- Left-to-right scan counting the non-overlapping matches `re.findall`
produces: at each position try the scheme followed by at least one allowed
character (the greedy `+` consumes the maximal run), else advance one
character.  `fuel` bounds the recursion by the list length. -/
def countUrlsAux : ℕ → List Char → ℕ
  | 0, _ => 0
  | _ + 1, [] => 0
  | fuel + 1, c :: rest =>
    match matchScheme (c :: rest) with
    | some after =>
      let run := after.takeWhile (fun ch => !(urlBodyForbidden ch))
      if 0 < run.length then 1 + countUrlsAux fuel (after.drop run.length)
      else countUrlsAux fuel rest
    | none => countUrlsAux fuel rest

/-- Source `len(re.findall(url_pattern, text, re.IGNORECASE))`. -/
def countUrls (t : String) : ℕ := countUrlsAux t.length t.data

/-- The four shortener substrings tested against `text_lower`. -/
def shortenerDomains : List String := ["bit.ly", "tinyurl", "goo.gl", "t.co"]

/-- The three keyword families (lines 117-119). -/
def urgencyKeywords : List String :=
  ["urgent", "immediately", "now", "asap", "quickly", "deadline"]

def financialKeywords : List String :=
  ["bank", "account", "payment", "money", "transfer", "credit"]

def credentialKeywords : List String :=
  ["password", "login", "verify", "confirm", "credentials"]

/-- Keyword-family hit count divided by family size. -/
def familyScore (family : List String) (t : String) : ℚ :=
  ((family.filter fun kw => subIn kw.data (pyLower t)).length : ℚ) / family.length

/-- Source `re.split(r'[.!?]+', text)`, stripped, empties dropped, counted.
Splitting at every single `.`/`!`/`?` and dropping empty stripped pieces
yields the same pieces as splitting at runs. -/
def sentenceCount (t : String) : ℕ :=
  ((((splitOnPred (fun c => c == '.' || c == '!' || c == '?') t.data).map
      trimChars).filter (· ≠ [])).length)

/-- Feature 1: `url_count`. -/
def f_url_count (t : String) : ℚ := countUrls t

/-- Feature 2: `has_url`. -/
def f_has_url (t : String) : ℚ := if 0 < countUrls t then 1 else 0

/-- Feature 3: `has_shortener`. -/
def f_has_shortener (t : String) : ℚ :=
  if shortenerDomains.any (fun s => subIn s.data (pyLower t)) then 1 else 0

/-- Feature 4: `url_count / word_count` with zero-guard. -/
def f_urls_per_word (t : String) : ℚ :=
  if 0 < wordCount t then (countUrls t : ℚ) / wordCount t else 0

/-- Feature 5: `uppercase_ratio` with zero-guard. -/
def f_uppercase (t : String) : ℚ :=
  if 0 < t.length then ((t.data.filter Char.isUpper).length : ℚ) / t.length else 0

/-- Feature 6: `punctuation_ratio` over the set `!?.,;:` with zero-guard. -/
def f_punctuation (t : String) : ℚ :=
  if 0 < t.length then
    ((t.data.filter fun c => "!?.,;:".data.contains c).length : ℚ) / t.length
  else 0

/-- Feature 7: `exclamation_count / text_len` with zero-guard. -/
def f_exclamation (t : String) : ℚ :=
  if 0 < t.length then ((t.data.filter (· == '!')).length : ℚ) / t.length else 0

/-- Feature 8: `question_count / text_len` with zero-guard. -/
def f_question (t : String) : ℚ :=
  if 0 < t.length then ((t.data.filter (· == '?')).length : ℚ) / t.length else 0

/-- Feature 9: character Shannon entropy over the text, 0.0 for empty text
(lines 110-114), normalized by 5.0 (line 151). -/
noncomputable def normalizedEntropy (t : String) : ℝ :=
  if t.length = 0 then 0
  else
    (-(∑ c ∈ t.data.toFinset,
        ((t.data.count c : ℝ) / t.length) *
          Real.logb 2 ((t.data.count c : ℝ) / t.length))) / 5

/-- Features 10-12: the keyword-family ratios. -/
def f_urgency (t : String) : ℚ := familyScore urgencyKeywords t

def f_financial (t : String) : ℚ := familyScore financialKeywords t

def f_credential (t : String) : ℚ := familyScore credentialKeywords t

/-- Feature 13: `avg_word_len / 10` with zero-guard on the average. -/
def f_avg_word_len (t : String) : ℚ :=
  (if 0 < wordCount t then
    (((pyWords t).map List.length).sum : ℚ) / wordCount t
   else 0) / 10

/-- Feature 14: `avg_sentence_len / 25`, where `avg_sentence_len` is words
per sentence with zero-guard. -/
def f_avg_sentence_len (t : String) : ℚ :=
  (if 0 < sentenceCount t then (wordCount t : ℚ) / sentenceCount t else 0) / 25

/-- Feature 15: `min(text_len / 500.0, 1.0)`. -/
def f_text_len (t : String) : ℚ := min ((t.length : ℚ) / 500) 1

/-- Feature 16: `min(word_count / 100.0, 1.0)`. -/
def f_word_count (t : String) : ℚ := min ((wordCount t : ℚ) / 100) 1

/-- The `extracted_features` array (lines 135-165) in source order.  Total on
every string: each component is a total function, so extraction never
raises. -/
noncomputable def extractedFeatures (t : String) : List ℝ :=
  [f_url_count t, f_has_url t, f_has_shortener t, f_urls_per_word t,
   f_uppercase t,
   f_punctuation t, f_exclamation t, f_question t,
   normalizedEntropy t,
   f_urgency t, f_financial t, f_credential t,
   f_avg_word_len t, f_avg_sentence_len t,
   f_text_len t, f_word_count t]

/-! ## Theorems -/

/-! ### Shared helper lemmas -/

/-- The 0.7/0.4 threshold function always yields one of the three levels. -/
lemma riskLevel_total (s : ℚ) :
    riskLevel s = "HIGH" ∨ riskLevel s = "MEDIUM" ∨ riskLevel s = "LOW" := by
  unfold riskLevel
  split_ifs <;> simp

/-! ### C1: final risk score stays in [0,1] -/

/-- C1: for component scores ai, intent, style, url, keyword each in [0,1],
the ensemble fusion — weighted sum 0.35/0.35/0.10/0.12/0.08, then a 1.15×
boost when at least 3 of the high-risk indicators {intent ∈ {phishing,scam},
url ≥ 0.8, keyword ≥ 0.8, ai ≥ 0.8} hold, a 1.08× boost when exactly 2 hold,
with the boosted value clamped to at most 1.0 — produces a final risk score
in [0,1]. -/
theorem fuse_risk_score_in_unit_interval (sc : Scores) (label : String)
    (h1 : 0 ≤ sc.ai) (h2 : sc.ai ≤ 1)
    (h3 : 0 ≤ sc.intent) (h4 : sc.intent ≤ 1)
    (h5 : 0 ≤ sc.style) (h6 : sc.style ≤ 1)
    (h7 : 0 ≤ sc.url) (h8 : sc.url ≤ 1)
    (h9 : 0 ≤ sc.keyword) (h10 : sc.keyword ≤ 1) :
    0 ≤ fuseRiskScore sc label ∧ fuseRiskScore sc label ≤ 1 := by
  have hb0 : 0 ≤ weightedScore sc := by unfold weightedScore; linarith
  have hb1 : weightedScore sc ≤ 1 := by unfold weightedScore; linarith
  unfold fuseRiskScore
  split_ifs with hk1 hk2
  · exact ⟨le_min (by norm_num) (mul_nonneg hb0 (by norm_num)), min_le_left _ _⟩
  · exact ⟨le_min (by norm_num) (mul_nonneg hb0 (by norm_num)), min_le_left _ _⟩
  · exact ⟨hb0, hb1⟩

/-- Witness for C1: the spec's own example scores (ai 0.9, intent "phishing",
style risk 0.8, url 0.9, keyword 0.9) give a final score in [0,1]. -/
theorem fuse_risk_score_in_unit_interval_witness :
    0 ≤ fuseRiskScore ⟨0.9, 0.9, 0.8, 0.9, 0.9⟩ "phishing" ∧
    fuseRiskScore ⟨0.9, 0.9, 0.8, 0.9, 0.9⟩ "phishing" ≤ 1 :=
  fuse_risk_score_in_unit_interval ⟨0.9, 0.9, 0.8, 0.9, 0.9⟩ "phishing"
    (by norm_num) (by norm_num) (by norm_num) (by norm_num) (by norm_num)
    (by norm_num) (by norm_num) (by norm_num) (by norm_num) (by norm_num)

/-! ### C3: risk-level thresholds -/

lemma riskLevel_high_iff (s : ℚ) : riskLevel s = "HIGH" ↔ 0.7 ≤ s := by
  unfold riskLevel
  split_ifs with h1 h2
  · exact iff_of_true rfl h1
  · exact iff_of_false (by decide) h1
  · exact iff_of_false (by decide) h1

lemma riskLevel_medium_iff (s : ℚ) :
    riskLevel s = "MEDIUM" ↔ 0.4 ≤ s ∧ s < 0.7 := by
  unfold riskLevel
  split_ifs with h1 h2
  · exact iff_of_false (by decide) (by rintro ⟨-, hlt⟩; linarith)
  · exact iff_of_true rfl ⟨h2, not_le.mp h1⟩
  · exact iff_of_false (by decide) (by rintro ⟨hge, -⟩; exact h2 hge)

lemma riskLevel_low_iff (s : ℚ) : riskLevel s = "LOW" ↔ s < 0.4 := by
  unfold riskLevel
  split_ifs with h1 h2
  · exact iff_of_false (by decide) (by intro hlt; linarith)
  · exact iff_of_false (by decide) (by intro hlt; linarith)
  · exact iff_of_true rfl (not_le.mp h2)

lemma riskLevelEncrypted_high_iff (s : ℚ) :
    riskLevelEncrypted s = "HIGH" ↔ 0.8 ≤ s := by
  unfold riskLevelEncrypted
  split_ifs with h1 h2
  · exact iff_of_true rfl h1
  · exact iff_of_false (by decide) h1
  · exact iff_of_false (by decide) h1

lemma riskLevelEncrypted_medium_iff (s : ℚ) :
    riskLevelEncrypted s = "MEDIUM" ↔ 0.5 ≤ s ∧ s < 0.8 := by
  unfold riskLevelEncrypted
  split_ifs with h1 h2
  · exact iff_of_false (by decide) (by rintro ⟨-, hlt⟩; linarith)
  · exact iff_of_true rfl ⟨h2, not_le.mp h1⟩
  · exact iff_of_false (by decide) (by rintro ⟨hge, -⟩; exact h2 hge)

lemma riskLevelEncrypted_low_iff (s : ℚ) :
    riskLevelEncrypted s = "LOW" ↔ s < 0.5 := by
  unfold riskLevelEncrypted
  split_ifs with h1 h2
  · exact iff_of_false (by decide) (by intro hlt; linarith)
  · exact iff_of_false (by decide) (by intro hlt; linarith)
  · exact iff_of_true rfl (not_le.mp h2)

/-- Counterexample to C3 as stated: the claim covers both cited `analyze`
routes, but the encrypted route (`analyze_encrypted.py` lines 162-167)
assigns MEDIUM, not HIGH, to the score 0.75 ≥ 0.7. -/
theorem risk_level_thresholds_counterexample :
    (0.7 : ℚ) ≤ 0.75 ∧ riskLevelEncrypted 0.75 = "MEDIUM" := by
  constructor
  · norm_num
  · unfold riskLevelEncrypted
    rw [if_neg (by norm_num), if_pos (by norm_num)]

/-- C3 amended: the plain `analyze.py` route partitions scores at 0.7/0.4
exactly as claimed (HIGH iff s ≥ 0.7, MEDIUM iff 0.4 ≤ s < 0.7, LOW iff
s < 0.4, one level per score); the `analyze_encrypted.py` route instead
partitions at 0.8/0.5 with the same left-inclusive shape. -/
theorem risk_level_threshold_partition (s : ℚ) :
    ((riskLevel s = "HIGH" ↔ 0.7 ≤ s) ∧
     (riskLevel s = "MEDIUM" ↔ 0.4 ≤ s ∧ s < 0.7) ∧
     (riskLevel s = "LOW" ↔ s < 0.4) ∧
     (riskLevel s = "HIGH" ∨ riskLevel s = "MEDIUM" ∨ riskLevel s = "LOW")) ∧
    ((riskLevelEncrypted s = "HIGH" ↔ 0.8 ≤ s) ∧
     (riskLevelEncrypted s = "MEDIUM" ↔ 0.5 ≤ s ∧ s < 0.8) ∧
     (riskLevelEncrypted s = "LOW" ↔ s < 0.5)) :=
  ⟨⟨riskLevel_high_iff s, riskLevel_medium_iff s, riskLevel_low_iff s,
    riskLevel_total s⟩,
   ⟨riskLevelEncrypted_high_iff s, riskLevelEncrypted_medium_iff s,
    riskLevelEncrypted_low_iff s⟩⟩

/-! ### C4: classifier failures never abort the analysis -/

/-- C4: `analyze` is total — a run with any subset of the five classifier
calls failing (`none`) still returns a complete `EnsembleResult` whose
risk level is one of the three labels — and each failed component
contributes exactly its documented neutral default: ai 0.0, intent
"unknown" with score 0.0, style 0.5, url 0.0, keyword 0.0. -/
theorem analyze_resilient_to_classifier_failure (o1 : Option AiRes)
    (o2 : Option IntentRes) (o3 : Option StyleRes) (o4 : Option UrlRes)
    (o5 : Option KwRes) :
    ((analyze o1 o2 o3 o4 o5).risk_level = "HIGH" ∨
     (analyze o1 o2 o3 o4 o5).risk_level = "MEDIUM" ∨
     (analyze o1 o2 o3 o4 o5).risk_level = "LOW") ∧
    (o1 = none → (computeScores o1 o2 o3 o4 o5).1.ai = 0) ∧
    (o2 = none → (computeScores o1 o2 o3 o4 o5).1.intent = 0 ∧
                 (computeScores o1 o2 o3 o4 o5).2.intent = "unknown") ∧
    (o3 = none → (computeScores o1 o2 o3 o4 o5).1.style = 0.5) ∧
    (o4 = none → (computeScores o1 o2 o3 o4 o5).1.url = 0) ∧
    (o5 = none → (computeScores o1 o2 o3 o4 o5).1.keyword = 0) := by
  refine ⟨riskLevel_total _, ?_, ?_, ?_, ?_, ?_⟩
  · rintro rfl; rfl
  · rintro rfl; exact ⟨rfl, rfl⟩
  · rintro rfl; rfl
  · rintro rfl; rfl
  · rintro rfl; rfl

/-- Witness for C4: all five classifiers failing at once still yields a
complete result with all five neutral defaults. -/
theorem analyze_resilient_to_classifier_failure_witness :
    ((analyze none none none none none).risk_level = "HIGH" ∨
     (analyze none none none none none).risk_level = "MEDIUM" ∨
     (analyze none none none none none).risk_level = "LOW") ∧
    (computeScores none none none none none).1.ai = 0 ∧
    (computeScores none none none none none).1.intent = 0 ∧
    (computeScores none none none none none).2.intent = "unknown" ∧
    (computeScores none none none none none).1.style = 0.5 ∧
    (computeScores none none none none none).1.url = 0 ∧
    (computeScores none none none none none).1.keyword = 0 := by
  have h := analyze_resilient_to_classifier_failure none none none none none
  exact ⟨h.1, h.2.1 rfl, (h.2.2.1 rfl).1, (h.2.2.1 rfl).2, h.2.2.2.1 rfl,
    h.2.2.2.2.1 rfl, h.2.2.2.2.2 rfl⟩

/-! ### C6: predict fallback behaviour -/

/-- Counterexample to C6 as stated: on a freshly constructed classifier that
was never fitted, `predict` initializes the model object and then calls the
scaler transform *outside* the guarded block; the unfitted scaler raises, so
`predict` raises instead of falling back. -/
theorem predict_fresh_model_raises :
    (predictOL freshOnline 19 ⟨"unknown", 0.3⟩ "safe" 0.9 5).1 =
      .error .notFitted := by
  rfl

/-- C6 amended: when the scaler transform succeeds (scaler fitted at the
extracted dimension), `predict` never raises; if the inner model prediction
fails, it returns the frozen static classifier's label and confidence — but
the returned `model_status` is "online", not "static_only", because the
status only tests whether the model object exists, which `predict` itself
guarantees. -/
theorem predict_fallback_static_result (st : OnlineState) (d : ℕ)
    (static : StaticRes) (mp : String) (mc : ℚ) (now : ℕ)
    (hm : st.modelExists = true) (hse : st.scalerExists = true)
    (hsf : st.scalerFitted = true) (hsd : st.scalerDim = some d)
    (hfail : ¬(st.modelFitted = true ∧ st.modelDim = some d)) :
    (predictOL st d static mp mc now).1 =
      .ok ⟨static.intent, static.probability, st.model_version, static.intent,
           static.probability, "online"⟩ ∧
    (predictOL st d static mp mc now).2 = st := by
  unfold predictOL
  simp [hm, hse, hsf, hsd, hfail]

/-- Witness for C6 amended: a loaded-snapshot state whose scaler is fitted at
dimension 19 but whose model is unfitted falls back to the static result with
status "online". -/
theorem predict_fallback_static_result_witness :
    (⟨true, false, none, true, true, some 19, some 19, some (.vInit 5), 0,
        none⟩ : OnlineState).modelExists = true ∧
    (predictOL
        ⟨true, false, none, true, true, some 19, some 19, some (.vInit 5), 0,
          none⟩ 19 ⟨"unknown", 0.3⟩ "safe" 0.9 7).1 =
      .ok ⟨"unknown", 0.3, some (.vInit 5), "unknown", 0.3, "online"⟩ :=
  ⟨rfl,
   (predict_fallback_static_result
      ⟨true, false, none, true, true, some 19, some 19, some (.vInit 5), 0,
        none⟩ 19 ⟨"unknown", 0.3⟩ "safe" 0.9 7 rfl rfl rfl rfl
      (by simp)).1⟩

/-! ### C7: dimension-mismatch handling in partial_fit -/

/-- Counterexample to C7 as stated: a model merely *initialized* at
`feature_dim` 19 (as `predict` does on first use) but never fitted accepts a
first batch of dimension 17 — the call succeeds and trains 2 samples instead
of raising, leaving `feature_dim` stale at 19. -/
theorem partial_fit_dim_mismatch_counterexample :
    (initializeModel freshOnline 19 5).feature_dim = some 19 ∧
    (partial_fit (initializeModel freshOnline 19 5) 2 17 ["spam", "safe"] 6).1 =
      .ok ⟨2, 2, .vTrained 2 6⟩ ∧
    (partial_fit (initializeModel freshOnline 19 5) 2 17 ["spam", "safe"] 6).2.training_samples
      = 2 :=
  ⟨rfl, rfl, rfl⟩

/-- C7 amended: once the scaler has been fitted at dimension `d0`, a
`partial_fit` whose batch dimension differs raises (sklearn rejects the
batch before mutating anything) and the entire state — in particular
`training_samples`, `model_version` and `last_trained` — is unchanged. -/
theorem partial_fit_fitted_dim_mismatch_rejected (st : OnlineState)
    (n d : ℕ) (y : List String) (now : ℕ) (d0 : ℕ)
    (hm : st.modelExists = true) (hsf : st.scalerFitted = true)
    (hsd : st.scalerDim = some d0) (hne : d ≠ d0) :
    (partial_fit st n d y now).1.isOk = false ∧
    (partial_fit st n d y now).2 = st := by
  have hsome : st.scalerDim ≠ some d := by
    rw [hsd]
    exact fun hc => hne (Option.some_inj.mp hc).symm
  unfold partial_fit
  rcases Nat.eq_zero_or_pos n with hn | hn
  · simp [hm, hsf, hsome, hn, Except.isOk, Except.toBool]
  · simp [hm, hsf, hsome, Nat.pos_iff_ne_zero.mp hn, Except.isOk, Except.toBool]

/-- Witness for C7 amended: a model fitted at dimension 19 rejects a batch of
dimension 17 and keeps its state. -/
theorem partial_fit_fitted_dim_mismatch_rejected_witness :
    (⟨true, true, some 19, true, true, some 19, some 19,
        some (.vTrained 2 5), 2, some 5⟩ : OnlineState).scalerFitted = true ∧
    (partial_fit
        ⟨true, true, some 19, true, true, some 19, some 19,
          some (.vTrained 2 5), 2, some 5⟩ 1 17 ["safe"] 6).1.isOk = false ∧
    (partial_fit
        ⟨true, true, some 19, true, true, some 19, some 19,
          some (.vTrained 2 5), 2, some 5⟩ 1 17 ["safe"] 6).2 =
      ⟨true, true, some 19, true, true, some 19, some 19,
        some (.vTrained 2 5), 2, some 5⟩ := by
  have h := partial_fit_fitted_dim_mismatch_rejected
    ⟨true, true, some 19, true, true, some 19, some 19,
      some (.vTrained 2 5), 2, some 5⟩ 1 17 ["safe"] 6 19
    rfl rfl rfl (by decide)
  exact ⟨rfl, h.1, h.2⟩

/-! ### C8: training_samples accumulates batch sizes -/

/-- A successful `partial_fit` of an `n`-row batch adds exactly `n` to
`training_samples`. -/
lemma partial_fit_ok_training_samples (st : OnlineState) (n d : ℕ)
    (y : List String) (now : ℕ) (s : FitStats) (st' : OnlineState)
    (h : partial_fit st n d y now = (.ok s, st')) :
    st'.training_samples = st.training_samples + n := by
  unfold partial_fit partial_fit.fitModel at h
  by_cases hme : st.modelExists <;>
    simp only [hme, initializeModel, Bool.false_eq_true, if_true, if_false] at h <;>
    split_ifs at h <;>
    simp only [Prod.mk.injEq] at h <;>
    first
      | exact absurd h.1 (fun hc => Except.noConfusion hc)
      | rw [← h.2]

/-- On any state, folding a list of successful `partial_fit` calls adds the
sum of the batch sizes to `training_samples`. -/
lemma applyFits_training_samples (fits : List (ℕ × ℕ × List String × ℕ)) :
    ∀ (st st' : OnlineState), applyFits st fits = some st' →
      st'.training_samples = st.training_samples + (fits.map fun f => f.1).sum := by
  induction fits with
  | nil =>
    intro st st' h
    simp only [applyFits, Option.some_inj] at h
    simp [← h]
  | cons f rest ih =>
    intro st st' h
    obtain ⟨n, d, y, t⟩ := f
    rcases hpf : partial_fit st n d y t with ⟨res, stm⟩
    cases res with
    | error e => rw [applyFits, hpf] at h; cases h
    | ok s =>
      rw [applyFits, hpf] at h
      have h1 := ih stm st' h
      have h2 := partial_fit_ok_training_samples st n d y t s stm hpf
      simp only [List.map_cons, List.sum_cons]
      omega

/-- C8: starting from a freshly initialized online model (no snapshot), after
any sequence of successful `partial_fit` calls with batches of sizes
b₁…b_N, the `training_samples` counter equals b₁+…+b_N. -/
theorem training_samples_accumulates (fits : List (ℕ × ℕ × List String × ℕ))
    (st' : OnlineState) (h : applyFits freshOnline fits = some st') :
    st'.training_samples = (fits.map fun f => f.1).sum := by
  simpa [freshOnline] using applyFits_training_samples fits freshOnline st' h

/-- Witness for C8: two successful batches of sizes 2 and 1 leave the counter
at 3. -/
theorem training_samples_accumulates_witness :
    applyFits freshOnline [(2, 19, ["spam", "safe"], 5), (1, 19, ["phishing"], 6)] =
      some ⟨true, true, some 19, true, true, some 19, some 19,
        some (.vTrained 3 6), 3, some 6⟩ ∧
    (⟨true, true, some 19, true, true, some 19, some 19,
        some (.vTrained 3 6), 3, some 6⟩ : OnlineState).training_samples =
      (([(2, 19, ["spam", "safe"], 5), (1, 19, ["phishing"], 6)] :
          List (ℕ × ℕ × List String × ℕ)).map fun f => f.1).sum := by
  have h : applyFits freshOnline
      [(2, 19, ["spam", "safe"], 5), (1, 19, ["phishing"], 6)] =
      some ⟨true, true, some 19, true, true, some 19, some 19,
        some (.vTrained 3 6), 3, some 6⟩ := rfl
  exact ⟨h, training_samples_accumulates _ _ h⟩

/-! ### C2: consent gating -/

/-- C2 as a concrete execution: the `trained=false, consent_verified=false`
sample is invisible to `train_on_new_data` (query-time filter, `no_data`),
yet `apply_feedback` with `retrain=true` on the very same sample passes it
straight to `partial_fit` — the model trains on one unconsented sample. -/
theorem consent_gating_feedback_bypass :
    (train_on_new_data
        ⟨[⟨1, some 7, [1, 0, 2], "spam", 0, "inference", false, false, none,
            false, 10, none⟩], [], freshOnline, false⟩ none 10 100 12).status =
      .no_data ∧
    (train_on_new_data
        ⟨[⟨1, some 7, [1, 0, 2], "spam", 0, "inference", false, false, none,
            false, 10, none⟩], [], freshOnline, false⟩ none 10 100 12).fitLog =
      [] ∧
    (apply_feedback
        ⟨[⟨1, some 7, [1, 0, 2], "spam", 0, "inference", false, false, none,
            false, 10, none⟩], [], freshOnline, false⟩ 1 "phishing" true
        12).status = .retrained ∧
    ((apply_feedback
        ⟨[⟨1, some 7, [1, 0, 2], "spam", 0, "inference", false, false, none,
            false, 10, none⟩], [], freshOnline, false⟩ 1 "phishing" true
        12).fitLog.map (·.consent_verified)) = [false] ∧
    (apply_feedback
        ⟨[⟨1, some 7, [1, 0, 2], "spam", 0, "inference", false, false, none,
            false, 10, none⟩], [], freshOnline, false⟩ 1 "phishing" true
        12).state.clf.training_samples = 1 :=
  ⟨rfl, rfl, rfl, rfl, rfl⟩

/-! ### C5: mutual exclusion of training -/

/-- Counterexample to C5 as stated: with the `is_training` flag set by an
in-flight run, `apply_feedback` with `retrain=true` does not consult the
flag — it runs its `partial_fit` anyway, mutating the model while a batch
training run is in progress. -/
theorem feedback_retrain_bypasses_training_flag :
    (⟨[⟨1, some 7, [1, 0, 2], "spam", 0, "inference", true, true, none, false,
        10, none⟩], [], freshOnline, true⟩ : ServiceState).is_training = true ∧
    (apply_feedback
        ⟨[⟨1, some 7, [1, 0, 2], "spam", 0, "inference", true, true, none,
            false, 10, none⟩], [], freshOnline, true⟩ 1 "scam" true 12).status =
      .retrained ∧
    (apply_feedback
        ⟨[⟨1, some 7, [1, 0, 2], "spam", 0, "inference", true, true, none,
            false, 10, none⟩], [], freshOnline, true⟩ 1 "scam" true
        12).state.clf.training_samples = 1 :=
  ⟨rfl, rfl, rfl⟩

/-- C5 amended: a second `train_on_new_data` call while `is_training` is set
returns `already_training` immediately, trains nothing and leaves the whole
service state unchanged; the `apply_feedback` retrain path, however, ignores
the flag (see the counterexample). -/
theorem run_training_mutual_exclusion (st : ServiceState) (acc : Option ℕ)
    (bs ms now : ℕ) (h : st.is_training = true) :
    train_on_new_data st acc bs ms now = ⟨.already_training, 0, st, []⟩ := by
  unfold train_on_new_data
  simp [h]

/-- Witness for C5 amended: on a busy service, `train_on_new_data` returns
`already_training` with nothing trained. -/
theorem run_training_mutual_exclusion_witness :
    (⟨[], [], freshOnline, true⟩ : ServiceState).is_training = true ∧
    train_on_new_data ⟨[], [], freshOnline, true⟩ none 10 100 5 =
      ⟨.already_training, 0, ⟨[], [], freshOnline, true⟩, []⟩ :=
  ⟨rfl, run_training_mutual_exclusion ⟨[], [], freshOnline, true⟩ none 10 100 5 rfl⟩

/-! ### C10: the is_training flag is always cleared -/

/-- C10: every `train_on_new_data` call that passes the initial
`is_training` check clears the flag before returning, on the `no_data`
early return, the exception path, and the success path alike (the Python
`finally` clause); so a failed or empty run never leaves the service
permanently reporting `already_training`. -/
theorem train_resets_flag_on_all_paths (st : ServiceState) (acc : Option ℕ)
    (bs ms now : ℕ) (h : st.is_training = false) :
    (train_on_new_data st acc bs ms now).state.is_training = false := by
  unfold train_on_new_data
  rw [if_neg (by rw [h]; exact Bool.false_ne_true)]
  split_ifs
  · rfl
  · rfl
  · rcases hr : runBatches st.clf st.db now
      (chunks bs (selectSamples st.db acc ms)) with ⟨res, clf', db', cnt, log⟩
    cases res <;> simp [hr]

/-- Witness for C10: an empty-table run takes the `no_data` path and leaves
the flag cleared. -/
theorem train_resets_flag_on_all_paths_witness :
    (⟨[], [], freshOnline, false⟩ : ServiceState).is_training = false ∧
    (train_on_new_data ⟨[], [], freshOnline, false⟩ none 10 100 5).state.is_training
      = false :=
  ⟨rfl, train_resets_flag_on_all_paths ⟨[], [], freshOnline, false⟩ none 10 100 5 rfl⟩

/-! ### C9: feature extraction on the empty string -/

/-- C9: feature extraction on the empty string returns (the embedding is a
total function) and every one of the 16 engineered features — URL count,
has-URL, has-shortener, URL-per-word, uppercase ratio,
punctuation/exclamation/question ratios, normalized entropy, the three
keyword-family ratios, the word-length and sentence-length features, and the
two length features — equals 0, so the engineered part of the vector is all
zeros. -/
theorem extract_features_empty_string_zero :
    extractedFeatures "" = List.replicate 16 (0 : ℝ) := by
  have h1 : f_url_count "" = 0 := rfl
  have h2 : f_has_url "" = 0 := rfl
  have h3 : f_has_shortener "" = 0 := rfl
  have h4 : f_urls_per_word "" = 0 := rfl
  have h5 : f_uppercase "" = 0 := rfl
  have h6 : f_punctuation "" = 0 := rfl
  have h7 : f_exclamation "" = 0 := rfl
  have h8 : f_question "" = 0 := rfl
  have h9 : normalizedEntropy "" = 0 := by
    unfold normalizedEntropy
    exact if_pos rfl
  have h10 : f_urgency "" = 0 := by
    unfold f_urgency familyScore
    norm_num [urgencyKeywords, subIn, pyLower]
  have h11 : f_financial "" = 0 := by
    unfold f_financial familyScore
    norm_num [financialKeywords, subIn, pyLower]
  have h12 : f_credential "" = 0 := by
    unfold f_credential familyScore
    norm_num [credentialKeywords, subIn, pyLower]
  have hw : wordCount "" = 0 := rfl
  have hs : sentenceCount "" = 0 := rfl
  have hl : String.length "" = 0 := rfl
  have h13 : f_avg_word_len "" = 0 := by norm_num [f_avg_word_len, hw]
  have h14 : f_avg_sentence_len "" = 0 := by norm_num [f_avg_sentence_len, hs]
  have h15 : f_text_len "" = 0 := by norm_num [f_text_len, hl, min_def]
  have h16 : f_word_count "" = 0 := by norm_num [f_word_count, hw, min_def]
  unfold extractedFeatures
  rw [h1, h2, h3, h4, h5, h6, h7, h8, h9, h10, h11, h12, h13, h14, h15, h16]
  norm_num [List.replicate]

end ThreatDetector
